import Mathlib

/-!
Verification of the InkyPi display manager (`src/display/display_manager.py`)
and of the single-flight refresh lock described in the specification.

The display manager's state and operations are embedded shallowly: external
image transformations (`change_orientation`, `resize_image`,
`apply_image_enhancement`, PIL drawing) are represented as free constructors
of an image term type, so the order and arguments of their application are
recorded exactly; fallible external steps are represented by an environment
of outcomes, and Python exceptions by `Except`.
-/

/-- The three concrete display driver classes that `DisplayManager.__init__`
can select: `MockDisplay`, `InkyDisplay`, `WaveshareDisplay`. -/
inductive Driver
  | mock
  | inky
  | waveshare
deriving DecidableEq

/-- All suffixes of a list, longest first, down to the empty suffix.
Used to give `fnmatch`-style semantics to the `*` wildcard. -/
def suffixes : List Char → List (List Char)
  | [] => [[]]
  | c :: cs => (c :: cs) :: suffixes cs

/-- Glob matching as performed by `fnmatch.fnmatch` on the pattern used in
`display_manager.py` (`"epd*in*"`): a literal character matches itself and
`*` matches any, possibly empty, sequence of characters. -/
def globMatch : List Char → List Char → Bool
  | [], s => s.isEmpty
  | '*' :: ps, s => (suffixes s).any fun s2 => globMatch ps s2
  | _ :: _, [] => false
  | c :: ps, c2 :: s2 => c == c2 && globMatch ps s2

/-- Driver selection in `DisplayManager.__init__` (display_manager.py lines
44–57): exact `"mock"` → mock driver, exact `"inky"` → Inky driver,
`fnmatch(display_type, "epd*in*")` → Waveshare driver, otherwise
`ValueError` (modelled as `Except.error` carrying the message) and no
driver instance is created. -/
def selectDisplay (displayType : String) : Except String Driver :=
  if displayType = "mock" then .ok .mock
  else if displayType = "inky" then .ok .inky
  else if globMatch "epd*in*".data displayType.data then .ok .waveshare
  else .error ("Unsupported display type: " ++ displayType)

/-- The slice of the configuration object that `DisplayManager` reads: the
`display_type` key (`none` when absent), the `orientation` key, the
truthiness of `inverted_image`, the `image_settings` enhancement blob, and
`get_resolution()`. Config values the code treats opaquely are kept as
`Option String`. -/
structure DeviceConfig where
  displayType : Option String
  orientation : Option String
  invertedImage : Bool
  imageSettingsCfg : Option String
  resolution : Nat × Nat
deriving DecidableEq

/-- `device_config.get_config("display_type", default="inky")` (line 42). -/
def getDisplayType (cfg : DeviceConfig) : String :=
  cfg.displayType.getD "inky"

/-- `DisplayManager.__init__`: look up the display type, defaulting to
`"inky"`, and select the driver. -/
def initDisplayManager (cfg : DeviceConfig) : Except String Driver :=
  selectDisplay (getDisplayType cfg)

/-- C1: driver selection follows the exact precedence mock → inky →
glob `"epd*in*"` → error: `"mock"` selects the mock driver; otherwise
`"inky"` selects the Inky driver; otherwise a string matching the glob
selects the Waveshare driver; otherwise construction fails with a
`ValueError` and no driver is created. In particular `"epd7in5"` selects
the Waveshare driver and `"banana"` raises the error. -/
theorem C1_driver_selection (s : String) :
    (s = "mock" → selectDisplay s = .ok .mock) ∧
    (s ≠ "mock" → s = "inky" → selectDisplay s = .ok .inky) ∧
    (s ≠ "mock" → s ≠ "inky" → globMatch "epd*in*".data s.data = true →
      selectDisplay s = .ok .waveshare) ∧
    (s ≠ "mock" → s ≠ "inky" → globMatch "epd*in*".data s.data = false →
      selectDisplay s = .error ("Unsupported display type: " ++ s)) ∧
    selectDisplay "epd7in5" = .ok .waveshare ∧
    selectDisplay "banana" = .error "Unsupported display type: banana" := by
  refine ⟨?_, ?_, ?_, ?_, ?_, ?_⟩
  · intro h; simp [selectDisplay, h]
  · intro h1 h2; simp [selectDisplay, h1, h2]
  · intro h1 h2 h3; simp [selectDisplay, h1, h2, h3]
  · intro h1 h2 h3; simp [selectDisplay, h1, h2, h3]
  · rfl
  · rfl

/-- Witness for C1: the theorem applied at the concrete input `"epd7in5"`,
discharging the hypotheses of its glob clause there. -/
theorem C1_driver_selection_witness :
    selectDisplay "epd7in5" = .ok .waveshare :=
  (C1_driver_selection "epd7in5").2.2.1 (by decide) (by decide) (by decide)

/-- C10: when the `display_type` key is absent, construction does not fail:
the lookup defaults to `"inky"` and the Inky driver is selected, exactly as
if the configuration string had been `"inky"`. -/
theorem C10_absent_display_type_defaults_inky (cfg : DeviceConfig)
    (h : cfg.displayType = none) :
    initDisplayManager cfg = .ok .inky ∧
    initDisplayManager cfg =
      initDisplayManager { cfg with displayType := some "inky" } := by
  constructor
  · simp [initDisplayManager, getDisplayType, h, selectDisplay]
  · simp [initDisplayManager, getDisplayType, h]

/-- Witness for C10: the theorem applied at a concrete configuration with
the `display_type` key absent. -/
theorem C10_absent_display_type_defaults_inky_witness :
    initDisplayManager ⟨none, none, false, none, (800, 480)⟩ = .ok .inky :=
  (C10_absent_display_type_defaults_inky ⟨none, none, false, none, (800, 480)⟩ rfl).1

/-- Images as free terms: external transformations are recorded as
constructors, so the pipeline's order of application is visible in the
term. `src` stands for an arbitrary plugin-produced input image;
`loadedRGB` is `Image.open(...).convert("RGB")` applied to a saved image;
`blank res` is `Image.new("RGB", tuple(resolution), (255, 255, 255))`;
`withOverlay` is the snapshot with the overlay rectangle and text drawn at
the given top-left corner. -/
inductive Img
  | src (id : Nat)
  | blank (res : Nat × Nat)
  | loadedRGB (i : Img)
  | oriented (i : Img) (o : Option String)
  | resized (i : Img) (res : Nat × Nat) (settings : List String)
  | rotated180 (i : Img)
  | enhanced (i : Img) (s : Option String)
  | withOverlay (base : Img) (text : String) (x y : Int)
deriving DecidableEq

/-- The mutable state a `DisplayManager` instance touches: whether the
`display` attribute was set at construction, the content of the snapshot
file `device_config.current_image_file` (`none` = file does not exist),
and the sequence of `render` calls the concrete driver has received,
oldest first, each with its settings list. -/
structure DMState where
  hasDisplay : Bool
  snapshot : Option Img
  dispatched : List (Img × List String)
deriving DecidableEq

/-- `DisplayManager.display_image` (lines 59–86): raise `ValueError` when no
display instance exists; otherwise save the incoming image to the snapshot
path, then orient, resize, conditionally rotate 180°, enhance, and dispatch
the final image with the original settings list to the driver. -/
def display_image (cfg : DeviceConfig) (st : DMState) (image : Img)
    (imageSettings : List String) : Except String DMState :=
  if st.hasDisplay = false then
    .error "No valid display instance initialized."
  else
    let st := { st with snapshot := some image }
    let image := Img.oriented image cfg.orientation
    let image := Img.resized image cfg.resolution imageSettings
    let image := if cfg.invertedImage then Img.rotated180 image else image
    let image := Img.enhanced image cfg.imageSettingsCfg
    .ok { st with dispatched := st.dispatched ++ [(image, imageSettings)] }

/-- Unfolding helper: on a state with a display instance, `display_image`
returns the state with the snapshot overwritten and the transformed image
dispatched. -/
theorem display_image_eq_of_hasDisplay (cfg : DeviceConfig) (st : DMState)
    (img : Img) (settings : List String) (h : st.hasDisplay = true) :
    display_image cfg st img settings =
      .ok { hasDisplay := st.hasDisplay, snapshot := some img,
            dispatched := st.dispatched ++
              [(Img.enhanced
                  (if cfg.invertedImage then
                    Img.rotated180 (Img.resized (Img.oriented img cfg.orientation)
                      cfg.resolution settings)
                  else
                    Img.resized (Img.oriented img cfg.orientation)
                      cfg.resolution settings)
                  cfg.imageSettingsCfg,
                settings)] } := by
  unfold display_image
  rw [if_neg (by simp [h])]

/-- C3: a successful `display_image` applies, in order, orientation, resize
with the given settings, a 180° rotation exactly when the inverted-image
flag is set, then enhancement, and dispatches that final image to the
driver together with the original, untransformed settings list. -/
theorem C3_pipeline_order (cfg : DeviceConfig) (st : DMState) (img : Img)
    (settings : List String) (h : st.hasDisplay = true) :
    display_image cfg st img settings =
      .ok { hasDisplay := st.hasDisplay, snapshot := some img,
            dispatched := st.dispatched ++
              [(Img.enhanced
                  (if cfg.invertedImage then
                    Img.rotated180 (Img.resized (Img.oriented img cfg.orientation)
                      cfg.resolution settings)
                  else
                    Img.resized (Img.oriented img cfg.orientation)
                      cfg.resolution settings)
                  cfg.imageSettingsCfg,
                settings)] } :=
  display_image_eq_of_hasDisplay cfg st img settings h

/-- Witness for C3: the theorem applied at a concrete state with a display
instance, a concrete image and settings list. -/
theorem C3_pipeline_order_witness :
    display_image ⟨some "inky", some "horizontal", false, none, (800, 480)⟩
        ⟨true, none, []⟩ (Img.src 0) ["fit"] =
      .ok { hasDisplay := true, snapshot := some (Img.src 0),
            dispatched := [(Img.enhanced
                (Img.resized (Img.oriented (Img.src 0) (some "horizontal"))
                  (800, 480) ["fit"]) none,
              ["fit"])] } :=
  C3_pipeline_order ⟨some "inky", some "horizontal", false, none, (800, 480)⟩
    ⟨true, none, []⟩ (Img.src 0) ["fit"] rfl

/-- C4: every successful `display_image` stores the incoming image in the
snapshot verbatim — untransformed — and a subsequent successful call
overwrites it with its own incoming image. -/
theorem C4_snapshot_verbatim_overwrite (cfg : DeviceConfig) (st : DMState)
    (img : Img) (settings : List String) (st' : DMState)
    (h : display_image cfg st img settings = .ok st') :
    st'.snapshot = some img ∧
    ∀ (cfg2 : DeviceConfig) (img2 : Img) (settings2 : List String)
      (st'' : DMState), display_image cfg2 st' img2 settings2 = .ok st'' →
        st''.snapshot = some img2 := by
  have hsnap : ∀ (c : DeviceConfig) (s s2 : DMState) (i : Img)
      (l : List String), display_image c s i l = .ok s2 → s2.snapshot = some i := by
    intro c s s2 i l hok
    by_cases hd : s.hasDisplay = false
    · simp [display_image, hd] at hok
    · simp only [display_image, hd, if_false] at hok
      cases hok
      rfl
  exact ⟨hsnap cfg st st' img settings h,
    fun cfg2 img2 settings2 st'' h2 => hsnap cfg2 st' st'' img2 settings2 h2⟩

/-- Witness for C4: the theorem applied to a concrete successful call whose
resulting state is spelled out; its snapshot is the raw incoming image. -/
theorem C4_snapshot_verbatim_overwrite_witness :
    (DMState.mk true (some (Img.src 1))
        [(Img.enhanced
            (Img.rotated180 (Img.resized (Img.oriented (Img.src 1) none)
              (800, 480) [])) none, [])]).snapshot = some (Img.src 1) :=
  (C4_snapshot_verbatim_overwrite ⟨some "inky", none, true, none, (800, 480)⟩
    ⟨true, some (Img.src 7), []⟩ (Img.src 1) [] _ rfl).1

/-- C9: `display_image` raises the `ValueError` exactly when no display
instance was set at construction; when a display instance exists the error
branch is unreachable and the call proceeds to the snapshot write and the
pipeline, ending in a dispatch. -/
theorem C9_no_display_defensive_check (cfg : DeviceConfig) (st : DMState)
    (img : Img) (settings : List String) :
    (st.hasDisplay = false →
      display_image cfg st img settings =
        .error "No valid display instance initialized.") ∧
    (st.hasDisplay = true →
      ∃ st' : DMState, display_image cfg st img settings = .ok st' ∧
        st'.snapshot = some img ∧
        ∃ final : Img, st'.dispatched = st.dispatched ++ [(final, settings)]) := by
  constructor
  · intro h; simp [display_image, h]
  · intro h
    exact ⟨_, display_image_eq_of_hasDisplay cfg st img settings h, rfl, _, rfl⟩

/-- Witness for C9: the theorem applied at a concrete state without a
display instance (error branch) — the hypothesis discharged concretely. -/
theorem C9_no_display_defensive_check_witness :
    display_image ⟨some "mock", none, false, none, (640, 400)⟩
        ⟨false, none, []⟩ (Img.src 3) [] =
      .error "No valid display instance initialized." :=
  (C9_no_display_defensive_check ⟨some "mock", none, false, none, (640, 400)⟩
    ⟨false, none, []⟩ (Img.src 3) []).1 rfl

/-- Outcomes of the external, fallible steps inside `display_overlay`:
`dims` is the width/height PIL reports for an image; `openFails` models
`Image.open(...).convert("RGB")` raising; `fontLoadFails` models
`ImageFont.load_default()` raising (caught by the inner try, leaving
`font = None`); `textbbox` is the result of `draw.textbbox` (`none` when it
raises, triggering the character-count fallback); `rectFails`,
`textDrawFails` and `dispatchFails` model the rectangle draw, the text draw
and the driver's `display_image` call raising. -/
structure OverlayEnv where
  dims : Img → Int × Int
  openFails : Bool
  fontLoadFails : Bool
  textbbox : Option (Int × Int × Int × Int)
  rectFails : Bool
  textDrawFails : Bool
  dispatchFails : Bool

/-- Text width/height in `display_overlay` (lines 111–118): from the
`textbbox` result when measurement succeeds, else the estimate
`(len(text) * 8, 14)`. -/
def overlayTextSize (env : OverlayEnv) (text : String) : Int × Int :=
  match env.textbbox with
  | some (a, b, c, d) => (c - a, d - b)
  | none => ((text.length : Int) * 8, 14)

/-- Padded box size (lines 120–122): `text_w + 2 * 12` by `text_h + 2 * 12`. -/
def overlayBoxSize (env : OverlayEnv) (text : String) : Int × Int :=
  ((overlayTextSize env text).1 + 12 * 2, (overlayTextSize env text).2 + 12 * 2)

/-- Horizontal anchor (lines 125–128): `"right"` puts the box flush to the
right margin minus the fixed 15-pixel inset; anything else falls back to
the left margin. -/
def overlayX (baseW boxW : Int) (posH : String) : Int :=
  if posH = "right" then baseW - boxW - 15 else 15

/-- Vertical anchor (lines 129–132): `"bottom"` puts the box flush to the
bottom minus the fixed 15-pixel inset; anything else falls back to the
top. -/
def overlayY (baseH boxH : Int) (posV : String) : Int :=
  if posV = "bottom" then baseH - boxH - 15 else 15

/-- The base image `display_overlay` composites onto (lines 96–100): the
snapshot file loaded and converted to RGB when it exists, else a fresh
blank canvas sized to `get_resolution()`. -/
def overlayBase (cfg : DeviceConfig) (st : DMState) : Img :=
  match st.snapshot with
  | some img => Img.loadedRGB img
  | none => Img.blank cfg.resolution

/-- The composed overlay image: the base with the filled box and text drawn
at the anchored position. -/
def composedOverlay (cfg : DeviceConfig) (st : DMState) (env : OverlayEnv)
    (text : String) (position : String × String) : Img :=
  Img.withOverlay (overlayBase cfg st) text
    (overlayX (env.dims (overlayBase cfg st)).1
      (overlayBoxSize env text).1 position.1)
    (overlayY (env.dims (overlayBase cfg st)).2
      (overlayBoxSize env text).2 position.2)

/-- The body of `display_overlay`'s outer `try` block (lines 96–140): each
external step that the environment marks as failing raises, modelled as
`Except.error`; otherwise the composed image is dispatched to the driver
with an empty settings list. A missing `display` attribute raises
`AttributeError` at the dispatch. -/
def overlayAttempt (cfg : DeviceConfig) (st : DMState) (env : OverlayEnv)
    (text : String) (position : String × String) : Except String DMState :=
  if st.snapshot.isSome && env.openFails then
    .error "I/O error opening snapshot"
  else if env.rectFails then
    .error "draw error: rectangle"
  else if env.textDrawFails then
    .error "draw error: text"
  else if st.hasDisplay = false then
    .error "AttributeError: no display attribute"
  else if env.dispatchFails then
    .error "driver error"
  else
    .ok { st with dispatched :=
      st.dispatched ++ [(composedOverlay cfg st env text position, [])] }

/-- `DisplayManager.display_overlay` (lines 88–142): the whole body runs
inside `try ... except Exception`, whose handler only logs, so the call
always returns normally — `Except.error` never escapes. -/
def display_overlay (cfg : DeviceConfig) (st : DMState) (env : OverlayEnv)
    (text : String) (position : String × String) : Except String DMState :=
  match overlayAttempt cfg st env text position with
  | .ok st' => .ok st'
  | .error _ => .ok st

/-- C5: `display_overlay` never raises to its caller — for every state,
every combination of internal failures (snapshot open, font load,
text measurement, drawing, dispatch) and every text and position, the call
returns normally. -/
theorem C5_overlay_never_throws (cfg : DeviceConfig) (st : DMState)
    (env : OverlayEnv) (text : String) (position : String × String) :
    ∃ st' : DMState, display_overlay cfg st env text position = .ok st' := by
  unfold display_overlay
  cases overlayAttempt cfg st env text position with
  | ok st' => exact ⟨st', rfl⟩
  | error e => exact ⟨st, rfl⟩

/-- C6: for every position tuple, the overlay box is anchored at
`width - box_w - 15` exactly when `position[0] = "right"` (any other value
falls back to the left anchor `15`), and at `height - box_h - 15` exactly
when `position[1] = "bottom"` (any other value falls back to the top
anchor `15`); `display_overlay` places the box at these coordinates. -/
theorem C6_overlay_anchor_fallback (baseW baseH boxW boxH : Int)
    (position : String × String) (cfg : DeviceConfig) (st : DMState)
    (env : OverlayEnv) (text : String) :
    (position.1 = "right" → overlayX baseW boxW position.1 = baseW - boxW - 15) ∧
    (position.1 ≠ "right" →
      overlayX baseW boxW position.1 = 15 ∧
      overlayX baseW boxW position.1 = overlayX baseW boxW "left") ∧
    (position.2 = "bottom" → overlayY baseH boxH position.2 = baseH - boxH - 15) ∧
    (position.2 ≠ "bottom" →
      overlayY baseH boxH position.2 = 15 ∧
      overlayY baseH boxH position.2 = overlayY baseH boxH "top") ∧
    composedOverlay cfg st env text position =
      Img.withOverlay (overlayBase cfg st) text
        (overlayX (env.dims (overlayBase cfg st)).1
          (overlayBoxSize env text).1 position.1)
        (overlayY (env.dims (overlayBase cfg st)).2
          (overlayBoxSize env text).2 position.2) := by
  refine ⟨?_, ?_, ?_, ?_, rfl⟩
  · intro h; simp [overlayX, h]
  · intro h; simp [overlayX, h]
  · intro h; simp [overlayY, h]
  · intro h; simp [overlayY, h]

/-- Witness for C6: the theorem applied at a concrete unrecognized position
tuple `("center", "middle")`, which falls back to the left/top anchors. -/
theorem C6_overlay_anchor_fallback_witness :
    overlayX 800 100 "center" = 15 ∧ overlayY 480 50 "middle" = 15 :=
  ⟨((C6_overlay_anchor_fallback 800 480 100 50 ("center", "middle")
      ⟨none, none, false, none, (800, 480)⟩ ⟨true, none, []⟩
      ⟨fun _ => (800, 480), false, false, none, false, false, false⟩
      "hi").2.1 (by decide)).1,
   ((C6_overlay_anchor_fallback 800 480 100 50 ("center", "middle")
      ⟨none, none, false, none, (800, 480)⟩ ⟨true, none, []⟩
      ⟨fun _ => (800, 480), false, false, none, false, false, false⟩
      "hi").2.2.2.1 (by decide)).1⟩

/-- C7: a successful `display_overlay` dispatches the composed image — the
base with the overlay drawn on it, none of the pipeline's orientation,
resize, rotation or enhancement constructors applied — directly to the
driver with an empty settings list. -/
theorem C7_overlay_bypasses_pipeline (cfg : DeviceConfig) (st : DMState)
    (env : OverlayEnv) (text : String) (position : String × String)
    (hopen : env.openFails = false) (hrect : env.rectFails = false)
    (htext : env.textDrawFails = false) (hdisp : env.dispatchFails = false)
    (hd : st.hasDisplay = true) :
    display_overlay cfg st env text position =
      .ok { st with dispatched := st.dispatched ++
        [(Img.withOverlay (overlayBase cfg st) text
            (overlayX (env.dims (overlayBase cfg st)).1
              (overlayBoxSize env text).1 position.1)
            (overlayY (env.dims (overlayBase cfg st)).2
              (overlayBoxSize env text).2 position.2),
          [])] } := by
  unfold display_overlay overlayAttempt
  rw [hopen, hrect, htext, hdisp, hd]
  simp [composedOverlay]

/-- Witness for C7: the theorem applied at a concrete no-failure
environment and state. -/
theorem C7_overlay_bypasses_pipeline_witness :
    display_overlay ⟨none, none, false, none, (800, 480)⟩
        ⟨true, some (Img.src 4), []⟩
        ⟨fun _ => (800, 480), false, false, some (0, 0, 40, 10), false, false, false⟩
        "Updating..." ("right", "bottom") =
      .ok ⟨true, some (Img.src 4),
        [(Img.withOverlay (Img.loadedRGB (Img.src 4)) "Updating..."
            (800 - 64 - 15) (480 - 34 - 15), [])]⟩ := by
  have h := C7_overlay_bypasses_pipeline ⟨none, none, false, none, (800, 480)⟩
    ⟨true, some (Img.src 4), []⟩
    ⟨fun _ => (800, 480), false, false, some (0, 0, 40, 10), false, false, false⟩
    "Updating..." ("right", "bottom") rfl rfl rfl rfl rfl
  rw [h]
  rfl

/-- C8: `display_overlay` composes onto the snapshot image loaded from the
snapshot path when the file exists, and otherwise onto a newly created
blank canvas whose dimensions equal the configured device resolution. -/
theorem C8_overlay_base (cfg : DeviceConfig) (st : DMState) (env : OverlayEnv)
    (text : String) (position : String × String) :
    (∀ i : Img, st.snapshot = some i →
      ∃ x y : Int, composedOverlay cfg st env text position =
        Img.withOverlay (Img.loadedRGB i) text x y) ∧
    (st.snapshot = none →
      ∃ x y : Int, composedOverlay cfg st env text position =
        Img.withOverlay (Img.blank cfg.resolution) text x y) := by
  constructor
  · intro i h
    refine ⟨overlayX (env.dims (Img.loadedRGB i)).1
        (overlayBoxSize env text).1 position.1,
      overlayY (env.dims (Img.loadedRGB i)).2
        (overlayBoxSize env text).2 position.2, ?_⟩
    simp [composedOverlay, overlayBase, h]
  · intro h
    refine ⟨overlayX (env.dims (Img.blank cfg.resolution)).1
        (overlayBoxSize env text).1 position.1,
      overlayY (env.dims (Img.blank cfg.resolution)).2
        (overlayBoxSize env text).2 position.2, ?_⟩
    simp [composedOverlay, overlayBase, h]

/-- Witness for C8: the theorem applied at a concrete state with no
snapshot file; the base is a blank canvas at the configured resolution. -/
theorem C8_overlay_base_witness :
    ∃ x y : Int, composedOverlay ⟨none, none, false, none, (640, 400)⟩
        ⟨true, none, []⟩
        ⟨fun _ => (640, 400), false, false, none, false, false, false⟩
        "hi" ("left", "top") =
      Img.withOverlay (Img.blank (640, 400)) "hi" x y :=
  (C8_overlay_base ⟨none, none, false, none, (640, 400)⟩ ⟨true, none, []⟩
    ⟨fun _ => (640, 400), false, false, none, false, false, false⟩
    "hi" ("left", "top")).2 rfl

/-- Modelled from the spec: the Refresh Scheduler (`refresh_task.py`) is not
among the provided source files; its single-flight lock is modelled from
§5 of the specification. The two execution contexts that render through the
lock: the background tick loop (`auto`) and a manual-update caller
(`manual`). -/
inductive SfActor
  | auto
  | manual
deriving DecidableEq

/-- Modelled from the spec: scheduler lock state — who holds the
single-flight lock, and which actors are currently inside a
render-and-dispatch. -/
structure SfState where
  owner : Option SfActor
  autoRendering : Bool
  manualRendering : Bool
deriving DecidableEq

/-- Modelled from the spec: atomic events of an interleaving — an actor
tries to take the lock, begins its render-and-dispatch, or finishes it and
releases the lock. -/
inductive SfEvent
  | tryAcquire (a : SfActor)
  | beginRender (a : SfActor)
  | endRender (a : SfActor)
deriving DecidableEq

/-- Whether an actor is inside a render-and-dispatch. -/
def isRendering (s : SfState) : SfActor → Bool
  | .auto => s.autoRendering
  | .manual => s.manualRendering

/-- Set an actor's rendering flag. -/
def setRendering (s : SfState) (a : SfActor) (b : Bool) : SfState :=
  match a with
  | .auto => { s with autoRendering := b }
  | .manual => { s with manualRendering := b }

/-- Modelled from the spec: one atomic step. A blocked acquisition (lock
already held) leaves the state unchanged — the actor waits; rendering can
only start while holding the lock; finishing a render releases the lock. -/
def sfStep (s : SfState) : SfEvent → SfState
  | .tryAcquire a => if s.owner = none then { s with owner := some a } else s
  | .beginRender a => if s.owner = some a then setRendering s a true else s
  | .endRender a =>
      if s.owner = some a then { setRendering s a false with owner := none }
      else s

/-- Run a sequence of events from a state. -/
def sfRun (s : SfState) : List SfEvent → SfState
  | [] => s
  | e :: es => sfRun (sfStep s e) es

/-- The initial scheduler state: lock free, nobody rendering. -/
def sfInit : SfState := ⟨none, false, false⟩

/-- Number of render-and-dispatch operations in progress. -/
def renderingCount (s : SfState) : Nat :=
  (if s.autoRendering then 1 else 0) + (if s.manualRendering then 1 else 0)

/-- Lock discipline invariant: an actor renders only while owning the
single-flight lock. -/
def sfInv (s : SfState) : Prop :=
  (s.autoRendering = true → s.owner = some .auto) ∧
  (s.manualRendering = true → s.owner = some .manual)

/-- Each atomic step preserves the lock discipline. -/
theorem sfInv_step (s : SfState) (e : SfEvent) (h : sfInv s) :
    sfInv (sfStep s e) := by
  obtain ⟨ha, hm⟩ := h
  cases e with
  | tryAcquire a =>
    by_cases ho : s.owner = none
    · constructor
      · intro hr
        have := ha (by simpa [sfStep, ho] using hr)
        rw [ho] at this
        exact absurd this (by simp)
      · intro hr
        have := hm (by simpa [sfStep, ho] using hr)
        rw [ho] at this
        exact absurd this (by simp)
    · simpa [sfStep, ho] using ⟨ha, hm⟩
  | beginRender a =>
    by_cases ho : s.owner = some a
    · cases a <;> simp_all [sfStep, setRendering, sfInv]
    · simpa [sfStep, ho] using ⟨ha, hm⟩
  | endRender a =>
    by_cases ho : s.owner = some a
    · cases a <;> simp_all [sfStep, setRendering, sfInv]
    · simpa [sfStep, ho] using ⟨ha, hm⟩

/-- Running any event sequence from a state satisfying the lock discipline
ends in a state satisfying it. -/
theorem sfInv_run (evs : List SfEvent) (s : SfState) (h : sfInv s) :
    sfInv (sfRun s evs) := by
  induction evs generalizing s with
  | nil => exact h
  | cons e es ih => exact ih (sfStep s e) (sfInv_step s e h)

/-- The lock discipline bounds the number of concurrent renders by one. -/
theorem renderingCount_le_one_of_inv (s : SfState) (h : sfInv s) :
    renderingCount s ≤ 1 := by
  obtain ⟨ha, hm⟩ := h
  unfold renderingCount
  by_cases h1 : s.autoRendering = true
  · have := ha h1
    by_cases h2 : s.manualRendering = true
    · have h3 := hm h2
      rw [this] at h3
      cases h3
    · simp [h1, h2]
  · simp [Bool.not_eq_true] at h1
    simp only [h1, if_false, Bool.false_eq_true, Nat.zero_add]
    split <;> omega

/-- C2: for every interleaving of automatic-tick and manual-update events,
at most one render-and-dispatch is in progress at any instant — the driver
never observes two overlapping render invocations. -/
theorem C2_single_flight (evs : List SfEvent) :
    renderingCount (sfRun sfInit evs) ≤ 1 :=
  renderingCount_le_one_of_inv (sfRun sfInit evs)
    (sfInv_run evs sfInit (by constructor <;> intro h <;> simp [sfInit] at h))
